import Mathlib

/-!
Verification development for the star-map repository.

The repository generates a star-system scene from an integer seed:
`src/lib/rng.ts` (mulberry32 / mixSeed), the editor page (basePlanets,
defaultNames, planets composition, exportJSON, onImportFileChange,
handleNumChange), `StarCanvas.tsx` (renderScene) and `StarSvg.tsx`
(markup generation), plus the belt/station/planet control components.

Embedding conventions:
* JavaScript 32-bit integer operations (`>>> 0`, `| 0`, `^`, `Math.imul`,
  `<<`, `>>>`) act on the unsigned 32-bit representative of a value, a
  natural number below 2^32.  Signed (`| 0`) and unsigned (`>>> 0`)
  views share the same representative, and every arithmetic result that
  feeds a bitwise operation is reduced mod 2^32, which matches the
  ToInt32/ToUint32 coercions of the source.
* A pseudo-random draw `rand()` returns `u / 2^32` for a 32-bit `u`; the
  embedding keeps the numerator `u : ℕ` and injects into ℚ via `q32`.
* Real-number arithmetic on draws (gaps, sizes, opacities ...) is
  modelled in ℚ.  The floor computations appearing in the source
  (`Math.floor(rand() * k)` for small k, `Math.floor(c + rand() * k)`)
  are exact in IEEE doubles for the ranges used, so the ℕ-division
  forms below agree bit-for-bit with the JavaScript values; the
  remaining non-floored expressions are used by the claims only through
  equality, which the exact ℚ model preserves.
* Angles produced as `rand() * Math.PI * 2` are recorded in turns (the
  raw draw `u / 2^32`); the actual radian value is 2π times the stored
  number.  Cartesian positions are recorded as the tuple of numeric
  inputs fed to cos/sin (center, polar angles, radii), which determines
  the real coordinates; equal tuples yield equal rendered points.
-/

namespace StarMap

/-- 2^32, the modulus of all JavaScript 32-bit bit operations. -/
def U32 : ℕ := 4294967296

/-- JavaScript `>>> 0` (ToUint32) on an integer value. -/
def toUint32 (z : ℤ) : ℕ := (z % (4294967296 : ℤ)).toNat

/-- `Math.imul`: 32-bit multiplication (result as unsigned representative). -/
def imul32 (a b : ℕ) : ℕ := (a * b) % U32

/-- 32-bit addition (the source adds exactly in doubles and reduces at the
next bitwise operation; only the value mod 2^32 is ever observed). -/
def add32 (a b : ℕ) : ℕ := (a + b) % U32

/-- The draw value `u / 2^32` of a 32-bit numerator, as a rational. -/
def q32 (u : ℕ) : ℚ := (u : ℚ) / 4294967296

/-- One call of the closure returned by `mulberry32` (src/lib/rng.ts
lines 5-10).  State is the captured `t`; returns (output numerator, new
state).  The returned float is `output / 2^32`. -/
def mulberryStep (t : ℕ) : ℕ × ℕ :=
  let t1 := add32 t 0x6d2b79f5
  let r1 := imul32 (t1 ^^^ (t1 >>> 15)) (t1 ||| 1)
  let r2 := r1 ^^^ (add32 r1 (imul32 (r1 ^^^ (r1 >>> 7)) (r1 ||| 61)))
  (r2 ^^^ (r2 >>> 14), t1)

/-- Stream state after `k` calls of a mulberry32 stream started at `t0`
(`t0` is already the `seed >>> 0` representative). -/
def mulberryState (t0 : ℕ) : ℕ → ℕ
  | 0 => t0
  | k + 1 => (mulberryStep (mulberryState t0 k)).2

/-- Numerator of the `k`-th output (0-based) of a mulberry32 stream. -/
def mulberryOut (t0 : ℕ) (k : ℕ) : ℕ := (mulberryStep (mulberryState t0 k)).1

/-- One loop iteration of `mixSeed` (src/lib/rng.ts lines 16-23);
`h` and `p` are unsigned representatives. -/
def mixStep (h p : ℕ) : ℕ :=
  let x0 := p ^^^ (h >>> 16)
  let x1 := imul32 x0 0x45d9f3b
  let x2 := x1 ^^^ (x1 >>> 16)
  let x3 := imul32 x2 0x45d9f3b
  let x4 := x3 ^^^ (x3 >>> 16)
  h ^^^ ((x4 + 0x7feb352d + ((h <<< 6) % U32) + (h >>> 2)) % U32)

/-- `mixSeed(...parts)` over the unsigned representatives of the parts. -/
def mixParts (parts : List ℕ) : ℕ := parts.foldl mixStep 0x9e3779b9

/-- `mixSeed(seed, salt, idx)` as used throughout the page: the seed is a
JavaScript number (`p | 0` truncates it to 32 bits), salt and index are
small non-negative integers. -/
def mix3 (seed : ℤ) (salt idx : ℕ) : ℕ :=
  mixParts [toUint32 seed, salt % U32, idx % U32]

/-! ## Data model (StarCanvas.tsx types, editor page state) -/

/-- Per-planet ring configuration (`Planet.rings` in StarCanvas.tsx).
`opacity`/`flatten` keep their exact rational values (the doubles
`0.4 + u*0.3` etc. are modelled exactly in ℚ; the claims use them only
through equality). -/
structure Rings where
  enabled : Bool
  gap : ℚ
  width : ℚ
  color : String
  opacity : ℚ
  flatten : ℚ
  angleDeg : ℚ
  deriving DecidableEq, Repr

/-- A planet as carried by the page and the renderers (`Planet` in
StarCanvas.tsx).  `angle` is stored in turns (the raw draw; radians =
2π·angle).  `moons`/`rings`/`showLabel` are the optional fields of the
source type. -/
structure Planet where
  orbitRadius : ℚ
  size : ℚ
  angle : ℚ
  color : String
  name : String
  moons : Option ℚ
  rings : Option Rings
  showLabel : Option Bool
  deriving DecidableEq, Repr

/-- Station icon variants (`Station.iconType`). -/
inductive IconType
  | diamond | triangle | square | cross | satellite
  deriving DecidableEq, Repr

/-- A space station (`Station` in StarCanvas.tsx).  `angle` is the raw
radian value chosen by pointer placement, kept as an exact rational. -/
structure Station where
  id : Option String
  name : Option String
  radius : ℚ
  angle : ℚ
  iconType : IconType
  color : String
  size : ℚ
  customIconDataUrl : Option String
  showLabel : Option Bool
  deriving DecidableEq, Repr

/-- Belt type (`BeltConfig.type` in AsteroidBeltsControls.tsx). -/
inductive BeltType
  | free | anchored
  deriving DecidableEq, Repr

/-- `BeltConfig` from AsteroidBeltsControls.tsx. -/
structure BeltConfig where
  btype : BeltType
  width : ℚ
  density : ℚ
  gapIndex : Option ℕ
  deriving DecidableEq, Repr

/-! ## Scene generation (editor page `basePlanets`, lines 117-162) -/

/-- The muted planet colour palette (lines 131-140). -/
def palette : List String :=
  ["#8AB4F8", "#F28B82", "#FDD663", "#81C995",
   "#CF9FFF", "#F6AEA9", "#B4C7E7", "#D7CCC8"]

/-- Ring colour choices (line 153). -/
def ringPalette : List String := ["#c9b18b", "#a0a0a0", "#b68d5a"]

/-- Moon-count salt `0xdeadbe` (line 143). -/
def moonSalt : ℕ := 0xdeadbe
/-- Ring salt `0x13579b` (line 146). -/
def ringSalt : ℕ := 0x13579b
/-- Belt salt `0xb17` (renderers). -/
def beltSalt : ℕ := 0xb17
/-- Moon-position salt `0xc0ffee` (renderers and exportJSON). -/
def moonPosSalt : ℕ := 0xc0ffee

/-- Generated moon count for planet `i`:
`Math.floor(mulberry32(mixSeed(seed, 0xdeadbe, i))() * 4)` (lines 143-144). -/
def moonsCountGen (seed : ℤ) (i : ℕ) : ℕ :=
  (mulberryStep (mix3 seed moonSalt i)).1 * 4 / U32

/-- Generated ring configuration for planet `i` (lines 146-158): a fresh
stream salted `0x13579b`; 25% presence, then gap, width, colour,
opacity, flatten, angleDeg drawn in the source's property order. -/
def genRings (seed : ℤ) (i : ℕ) : Option Rings :=
  let s0 := mix3 seed ringSalt i
  let (u0, s1) := mulberryStep s0
  if u0 < 1073741824 then    -- ringsGen() < 0.25  ⟺  u0 < 2^30
    let (u1, s2) := mulberryStep s1   -- gap = Math.floor(1 + r*4)
    let (u2, s3) := mulberryStep s2   -- width = Math.floor(6 + r*16)
    let (u3, s4) := mulberryStep s3   -- color index = Math.floor(r*3)
    let (u4, s5) := mulberryStep s4   -- opacity = 0.4 + r*0.3
    let (u5, s6) := mulberryStep s5   -- flatten = 0.5 + r*0.4
    let (u6, _) := mulberryStep s6    -- angleDeg = Math.floor(30 + r*60)
    some { enabled := true
           gap := ((1 + u1 * 4 / U32 : ℕ) : ℚ)
           width := ((6 + u2 * 16 / U32 : ℕ) : ℚ)
           color := ringPalette.getD (u3 * 3 / U32) ""
           opacity := 2/5 + q32 u4 * (3/10)
           flatten := 1/2 + q32 u5 * (2/5)
           angleDeg := ((30 + u6 * 60 / U32 : ℕ) : ℚ) }
  else none

/-- One iteration of the `basePlanets` loop (lines 125-160): draw gap,
size, angle, colour off the main stream; moons and rings come from
their own salted streams.  Returns the planet, the accumulated orbit
and the main-stream state. -/
def genPlanet (seed : ℤ) (i : ℕ) (currentOrbit : ℚ) (s : ℕ) :
    Planet × ℚ × ℕ :=
  let ug := (mulberryStep s).1
  let s1 := (mulberryStep s).2
  let orbit := currentOrbit + (35 + q32 ug * (70 - 35))
  let us := (mulberryStep s1).1
  let s2 := (mulberryStep s1).2
  let ua := (mulberryStep s2).1
  let s3 := (mulberryStep s2).2
  let uc := (mulberryStep s3).1
  let s4 := (mulberryStep s3).2
  ({ orbitRadius := orbit
     size := ((4 + us * 10 / U32 : ℕ) : ℚ)
     angle := q32 ua
     color := palette.getD (uc * 8 / U32) ""
     name := ""
     moons := some ((moonsCountGen seed i : ℕ) : ℚ)
     rings := genRings seed i
     showLabel := none },
   orbit, s4)

/-- The loop of `basePlanets`: `fuel` planets remain, `i` is the current
index, `orbit` the accumulated radius, `s` the main stream state. -/
def basePlanetsAux (seed : ℤ) : ℕ → ℕ → ℚ → ℕ → List Planet
  | 0, _, _, _ => []
  | fuel + 1, i, orbit, s =>
    (genPlanet seed i orbit s).1
      :: basePlanetsAux seed fuel (i + 1) (genPlanet seed i orbit s).2.1
           (genPlanet seed i orbit s).2.2

/-- `basePlanets` (lines 117-162): minimum orbit 40, main stream
`mulberry32(seed)`. -/
def basePlanets (seed : ℤ) (n : ℕ) : List Planet :=
  basePlanetsAux seed n 0 40 (toUint32 seed)

/-! ## Default names (editor page lines 165-182) -/

/-- Name prefixes (line 167). -/
def namePrefixes : List String :=
  ["Zeta", "Epsilon", "Delta", "Theta", "Omega", "Sigma", "Alpha",
   "Beta", "Gamma", "Kappa", "Rho", "Tau", "Xi"]

/-- Roman-numeral suffixes (line 168). -/
def nameSuffixes : List String :=
  ["I", "II", "III", "IV", "V", "VI", "VII", "VIII", "IX", "X"]

/-- Syllables (line 169). -/
def nameSyll : List String :=
  ["ka", "tor", "vel", "ria", "zan", "kor", "tal", "xen", "ili",
   "dra", "nus", "mir", "pho", "lyr", "cyg"]

/-- `name.charAt(0).toUpperCase() + name.slice(1)` for ASCII strings. -/
def capitalize (s : String) : String :=
  match s.data with
  | [] => ""
  | c :: rest => String.mk (c.toUpper :: rest)

/-- The syllable loop (line 178): `parts` draws, appending to `acc`. -/
def genSyllAux : ℕ → ℕ → String → String × ℕ
  | 0, s, acc => (acc, s)
  | k + 1, s, acc =>
    let (u, s') := mulberryStep s
    genSyllAux k s' (acc ++ nameSyll.getD (u * 15 / U32) "")

/-- One default name (lines 171-180): branch on `rand() < 0.5`. -/
def genNameOne (s : ℕ) : String × ℕ :=
  let (u0, s0) := mulberryStep s
  if u0 < 2147483648 then     -- rand() < 0.5  ⟺  u0 < 2^31
    let (u1, s1) := mulberryStep s0
    let (u2, s2) := mulberryStep s1
    (namePrefixes.getD (u1 * 13 / U32) "" ++ " "
       ++ nameSuffixes.getD (u2 * 10 / U32) "", s2)
  else
    let (u1, s1) := mulberryStep s0
    let parts := 2 + u1 * 2 / U32
    let (nm, s2) := genSyllAux parts s1 ""
    (capitalize nm, s2)

/-- Thread the name stream over `n` planets. -/
def defaultNamesAux : ℕ → ℕ → List String
  | 0, _ => []
  | k + 1, s =>
    let (nm, s') := genNameOne s
    nm :: defaultNamesAux k s'

/-- `defaultNames` (lines 165-182): stream `mulberry32(seed ^ 0x51a5a5)`,
consumed planet-by-planet (one name per base planet). -/
def defaultNames (seed : ℤ) (n : ℕ) : List String :=
  defaultNamesAux n (toUint32 seed ^^^ 0x51a5a5)

/-! ## Override composition (editor page lines 184-203) -/

/-- A per-planet override record (`PlanetModel`); a sparse-array slot that
was never written behaves exactly like `emptyOverride`. -/
structure PlanetOverride where
  name : Option String
  size : Option ℚ
  color : Option String
  moons : Option ℚ
  rings : Option Rings
  showLabel : Option Bool
  deriving DecidableEq, Repr

/-- The absent override (`planetOverrides[i]` undefined). -/
def emptyOverride : PlanetOverride :=
  { name := none, size := none, color := none, moons := none,
    rings := none, showLabel := none }

/-- `getPlanetName` (lines 184-189):
`customNames[index] ?? planetOverrides[index]?.name ?? defaultNames[index]
 ?? `Planet ${index+1}``. -/
def planetName (cn : ℕ → Option String) (ov : ℕ → PlanetOverride)
    (defaults : List String) (i : ℕ) : String :=
  (cn i).getD ((ov i).name.getD
    ((defaults[i]?).getD ("Planet " ++ toString (i + 1))))

/-- Composition of one planet (lines 193-202).  Note the source takes
`moons` from the override only (`planetOverrides[i]?.moons`, line 199,
with no `?? src.moons` fallback), unlike `size`/`color`/`rings`. -/
def composePlanet (src : Planet) (o : PlanetOverride) (nm : String) : Planet :=
  { orbitRadius := src.orbitRadius
    angle := src.angle
    size := o.size.getD src.size
    color := o.color.getD src.color
    name := nm
    moons := o.moons
    rings := match o.rings with | some r => some r | none => src.rings
    showLabel := o.showLabel }

/-- `basePlanets.map((src, i) => ...)` with a running index. -/
def planetsListAux (defaults : List String) (ov : ℕ → PlanetOverride)
    (cn : ℕ → Option String) : ℕ → List Planet → List Planet
  | _, [] => []
  | i, b :: rest =>
    composePlanet b (ov i) (planetName cn ov defaults i)
      :: planetsListAux defaults ov cn (i + 1) rest

/-- The composed `planets` memo (lines 192-203). -/
def planetsCompose (seed : ℤ) (n : ℕ) (ov : ℕ → PlanetOverride)
    (cn : ℕ → Option String) : List Planet :=
  planetsListAux (defaultNames seed n) ov cn 0 (basePlanets seed n)

/-! ## Belts (renderScene in StarCanvas.tsx lines 207-238; identical
computation in StarSvg.tsx beltsData lines 74-109) -/

/-- Resolve a belt's inner/outer radii; `none` means the anchored belt's
referenced planet is missing and the belt is skipped. -/
def resolveBelt (seed : ℤ) (ps : List Planet) (bi : ℕ) (b : BeltConfig) :
    Option (ℚ × ℚ) :=
  match b.btype, b.gapIndex with
  | .anchored, some g =>
    match ps[g]?, ps[g + 1]? with
    | some a, some pb =>
      let radius := (a.orbitRadius + pb.orbitRadius) / 2
      let inner := max 50 (radius - b.width / 2)
      some (inner, inner + b.width)
    | _, _ => none
  | _, _ =>
    let lastOrbit := match ps.getLast? with
      | some p => p.orbitRadius
      | none => 300
    let minR : ℚ := 80
    let maxR := max (minR + 60) (lastOrbit + 120)
    let (u, _) := mulberryStep (mix3 seed beltSalt (bi * 293))
    let radius := minR + q32 u * (maxR - minR)
    let inner := max 50 (radius - b.width / 2)
    some (inner, inner + b.width)

/-- A belt particle in polar form; the drawn point is
`(cx + cos(2π·angle)·rr, cy + sin(2π·angle)·rr)` with square side `s`. -/
structure BeltParticle where
  angle : ℚ
  rr : ℚ
  s : ℚ
  deriving DecidableEq, Repr

/-- `Math.floor(900 * Math.min(1, Math.max(0, density)))`. -/
def beltParticleCount (density : ℚ) : ℕ :=
  (Int.toNat ⌊(900 : ℚ) * min 1 (max 0 density)⌋)

/-- The particle loop: three draws (angle, radius, size) per particle. -/
def beltParticlesAux (inner outer : ℚ) : ℕ → ℕ → List BeltParticle
  | 0, _ => []
  | k + 1, s =>
    let (u1, s1) := mulberryStep s
    let (u2, s2) := mulberryStep s1
    let (u3, s3) := mulberryStep s2
    { angle := q32 u1
      rr := inner + q32 u2 * (outer - inner)
      s := 1/2 + q32 u3 * (12/10) } :: beltParticlesAux inner outer k s3

/-- Particle set of one belt (empty when an anchored belt is skipped: the
canvas `continue`s, StarSvg pushes `{ particles: [] }`). -/
def beltEntry (seed : ℤ) (ps : List Planet) (bi : ℕ) (b : BeltConfig) :
    List BeltParticle :=
  match resolveBelt seed ps bi b with
  | none => []
  | some (inner, outer) =>
    beltParticlesAux inner outer (beltParticleCount b.density)
      (mix3 seed beltSalt (bi * 97 + 777))

/-- The `for (let bi = 0; ...)` loop over the belt list. -/
def beltRenderAux (seed : ℤ) (ps : List Planet) :
    ℕ → List BeltConfig → List (List BeltParticle)
  | _, [] => []
  | bi, b :: rest =>
    beltEntry seed ps bi b :: beltRenderAux seed ps (bi + 1) rest

/-- All belt particle sets of a scene. -/
def beltRender (seed : ℤ) (ps : List Planet) (belts : List BeltConfig) :
    List (List BeltParticle) :=
  beltRenderAux seed ps 0 belts

/-! ## Moons (exportJSON lines 320-333; renderScene lines 294-319;
StarSvg moonData lines 53-72 — all three share the same derivation) -/

/-- The page's moon settings are fixed `useState` constants (lines 95-99). -/
def showMoonsC : Bool := true
/-- `moonMinSize` (line 96). -/
def moonMinSizeC : ℚ := 1
/-- `moonMaxSize` (line 97). -/
def moonMaxSizeC : ℚ := 3
/-- `moonOrbitMin` (line 98). -/
def moonOrbitMinC : ℚ := 10
/-- `moonOrbitMax` (line 99). -/
def moonOrbitMaxC : ℚ := 22

/-- `Array.from({length: q})` length semantics (ToLength: floor, clamp
below at 0). -/
def lengthCount (q : ℚ) : ℕ := (⌊q⌋).toNat

/-- Iterations of `for (let m = 0; m < q; m++)` for a numeric bound. -/
def loopCount (q : ℚ) : ℕ := (⌈q⌉).toNat

/-- JavaScript `x !== false` for an optional boolean. -/
def notFalse : Option Bool → Bool
  | some false => false
  | _ => true

/-- Cartesian position of a planet: the real point is
`(cx + cos(2π·angle)·radius, cy + sin(2π·angle)·radius)`. -/
structure PlanetPos where
  cx : ℚ
  cy : ℚ
  angle : ℚ
  radius : ℚ
  deriving DecidableEq, Repr

/-- Cartesian position of a moon: the parent point offset by
`(cos(2π·mangle)·mdist, sin(2π·mangle)·mdist)`. -/
structure MoonPos where
  cx : ℚ
  cy : ℚ
  pangle : ℚ
  pradius : ℚ
  mangle : ℚ
  mdist : ℚ
  deriving DecidableEq, Repr

/-- A derived moon: angle (turns), orbit distance from the parent's
surface, size, and position. -/
structure Moon where
  angle : ℚ
  orbit : ℚ
  size : ℚ
  pos : MoonPos
  deriving DecidableEq, Repr

/-- The shared per-moon draw sequence: angle, orbit, size (three draws). -/
def genMoonsAux (cx cy pangle pradius psize : ℚ) : ℕ → ℕ → List Moon
  | 0, _ => []
  | k + 1, s =>
    let (u1, s1) := mulberryStep s
    let (u2, s2) := mulberryStep s1
    let (u3, s3) := mulberryStep s2
    let ma := q32 u1
    let mOrbit := moonOrbitMinC + q32 u2 * max 0 (moonOrbitMaxC - moonOrbitMinC)
    let mSize := moonMinSizeC + q32 u3 * (moonMaxSizeC - moonMinSizeC)
    { angle := ma, orbit := mOrbit, size := mSize,
      pos := ⟨cx, cy, pangle, pradius, ma, psize + mOrbit⟩ }
      :: genMoonsAux cx cy pangle pradius psize k s3

/-- Moons of planet `idx` recomputed from the stream
`mulberry32(mixSeed(seed, 0xc0ffee, idx + 1))`. -/
def genMoons (seed : ℤ) (cx cy : ℚ) (idx : ℕ) (p : Planet) (count : ℕ) :
    List Moon :=
  genMoonsAux cx cy p.angle p.orbitRadius p.size count
    (mix3 seed moonPosSalt (idx + 1))

/-- Moon count used by `exportJSON` (lines 323-325):
`perPlanetCount = typeof p.moons === 'number' ? p.moons : 0`, then
`showMoons && moonMaxSize >= moonMinSize && perPlanetCount > 0 ?
perPlanetCount : 0` as an `Array.from` length. -/
def exportMoonCount (moons : Option ℚ) : ℕ :=
  let per := moons.getD 0
  if showMoonsC ∧ moonMinSizeC ≤ moonMaxSizeC ∧ 0 < per
  then lengthCount per else 0

/-- Moon count used by the renderers (StarCanvas lines 295-297, StarSvg
line 56): `(typeof p.moons === 'number' ? p.moons : globalMoons) ?? 0`
with `globalMoons = 0` passed by the page, gated by
`showMoons && moonMaxSize >= moonMinSize` and `count > 0`. -/
def renderMoonCount (moons : Option ℚ) : ℕ :=
  let count := moons.getD 0
  if showMoonsC ∧ moonMinSizeC ≤ moonMaxSizeC ∧ 0 < count
  then loopCount count else 0

/-! ## Snapshot export / import (editor page lines 290-355 / 369-421) -/

/-- One planet entry of the exported document. -/
structure PlanetDoc where
  orbitRadius : ℚ
  size : ℚ
  angle : ℚ
  color : String
  name : String
  moonsCount : Option ℚ
  rings : Option Rings
  pos : PlanetPos
  moons : List Moon
  showLabel : Bool
  deriving DecidableEq, Repr

/-- The `settings` block of the exported document (the fixed moon
parameters are the constants above and are not restored on import). -/
structure ExportSettings where
  belts : List BeltConfig
  stations : List Station
  labelSize : ℚ
  labelColor : String
  showLabelBackground : Bool
  deriving DecidableEq, Repr

/-- The exported snapshot document. -/
structure ExportDoc where
  seed : ℤ
  settings : ExportSettings
  planets : List PlanetDoc
  deriving DecidableEq, Repr

/-- Station entry written by `exportJSON` (line 305): all fields copied,
`showLabel: s.showLabel !== false`. -/
def exportStationJS (s : Station) : Station :=
  { s with showLabel := some (notFalse s.showLabel) }

/-- One exported planet entry (lines 320-345); positions are relative to
`cx = cy = 0` (line 292). -/
def exportPlanet (seed : ℤ) (idx : ℕ) (p : Planet) : PlanetDoc :=
  { orbitRadius := p.orbitRadius
    size := p.size
    angle := p.angle
    color := p.color
    name := p.name
    moonsCount := p.moons
    rings := p.rings
    pos := ⟨0, 0, p.angle, p.orbitRadius⟩
    moons := genMoons seed 0 0 idx p (exportMoonCount p.moons)
    showLabel := notFalse p.showLabel }

/-- `planets.forEach((p, idx) => ...)` of `exportJSON`. -/
def exportPlanetsAux (seed : ℤ) : ℕ → List Planet → List PlanetDoc
  | _, [] => []
  | idx, p :: rest =>
    exportPlanet seed idx p :: exportPlanetsAux seed (idx + 1) rest

/-- The page state that generation, export and import read and write. -/
structure AppState where
  seed : ℤ
  numPlanets : ℕ
  overrides : ℕ → PlanetOverride
  customNames : ℕ → Option String
  belts : List BeltConfig
  stations : List Station
  labelSize : ℚ
  labelColor : String
  showLabelBackground : Bool

/-- The composed planet list of a state. -/
def composedPlanets (st : AppState) : List Planet :=
  planetsCompose st.seed st.numPlanets st.overrides st.customNames

/-- `exportJSON` (lines 290-355). -/
def exportDoc (st : AppState) : ExportDoc :=
  { seed := st.seed
    settings :=
      { belts := st.belts
        stations := st.stations.map exportStationJS
        labelSize := st.labelSize
        labelColor := st.labelColor
        showLabelBackground := st.showLabelBackground }
    planets := exportPlanetsAux st.seed 0 (composedPlanets st) }

/-- Override reconstructed for one imported planet entry (lines 386-400).
The document model is schema-typed (it captures documents produced by
`exportJSON`), so the `typeof`-guards on `size`/`color` succeed and the
`??`-defaults inside `rings` are never taken; `name` is routed to
`customNames`, not to the override (lines 381-385). -/
def importOverride (pd : PlanetDoc) : PlanetOverride :=
  { name := none
    size := some pd.size
    color := some pd.color
    moons := pd.moonsCount
    showLabel := some (notFalse (some pd.showLabel))
    rings := pd.rings }

/-- Station restored by import (line 411): `{...s, showLabel: s.showLabel
!== false}`. -/
def importStationJS (s : Station) : Station :=
  { s with showLabel := some (notFalse s.showLabel) }

/-- `onImportFileChange` on a successfully parsed document (lines
373-412): replaces seed, planet count (length of the planets array,
unclamped), names, overrides, and the imported settings. -/
def importState (doc : ExportDoc) (st : AppState) : AppState :=
  { st with
    seed := doc.seed
    numPlanets := doc.planets.length
    customNames := fun i =>
      match doc.planets[i]? with
      | some pd => if pd.name = "" then none else some pd.name
      | none => none
    overrides := fun i =>
      match doc.planets[i]? with
      | some pd => importOverride pd
      | none => emptyOverride
    belts := doc.settings.belts
    stations := doc.settings.stations.map importStationJS
    labelSize := doc.settings.labelSize
    labelColor := doc.settings.labelColor
    showLabelBackground := doc.settings.showLabelBackground }

/-- `handleNumChange` (lines 357-360):
`Math.max(0, Math.min(20, Math.floor(value)))`. -/
def handleNumChange (value : ℚ) : ℤ := max 0 (min 20 ⌊value⌋)

/-! ## Starfield and star layout (renderScene lines 110-136) -/

/-- One starfield dot: `(x, y, side, alpha)`. -/
def starfieldAux (w h : ℚ) : ℕ → ℕ → List (ℚ × ℚ × ℚ × ℚ)
  | 0, _ => []
  | k + 1, s =>
    let (u1, s1) := mulberryStep s
    let (u2, s2) := mulberryStep s1
    let (u3, s3) := mulberryStep s2
    let (u4, s4) := mulberryStep s3
    (q32 u1 * w, q32 u2 * h, q32 u3 * (3/2), 3/10 + q32 u4 * (7/10))
      :: starfieldAux w h k s4

/-- The 300 background dots, stream `mulberry32(seed ^ 0xabcdef)`. -/
def starfield (seed : ℤ) (w h : ℚ) : List (ℚ × ℚ × ℚ × ℚ) :=
  starfieldAux w h 300 (toUint32 seed ^^^ 0xabcdef)

/-- `baseAngle` for the star layout (line 123), in turns:
`mulberry32(seed ^ 0x5151)() * Math.PI * 2`. -/
def starBaseAngle (seed : ℤ) : ℚ :=
  q32 (mulberryStep (toUint32 seed ^^^ 0x5151)).1

/-! ## Renderer geometry (StarCanvas.tsx renderScene vs StarSvg.tsx
markup).  Colour literals are encoded numerically so the canvas
`rgba(r,g,b,a)` strings and the SVG hex-plus-opacity attributes can be
compared: `#RRGGBB` at opacity a ↦ ⟨R, G, B, a⟩. -/

/-- An RGBA colour value. -/
structure RGBA where
  r : ℕ
  g : ℕ
  b : ℕ
  a : ℚ
  deriving DecidableEq, Repr

/-- A radial-gradient stop. -/
structure GradStop where
  offset : ℚ
  color : RGBA
  deriving DecidableEq, Repr

/-- Star types (`StarCanvasProps.stars`). -/
inductive StarType
  | yellow | redDwarf | blueGiant | neutron | blackHole
  deriving DecidableEq, Repr

/-- Positions of the 1-3 system stars (renderScene lines 121-136):
one star sits at the canvas centre; two sit at centre ± cos/sin of
`baseAngle` (turns) times 60; three at `baseAngle + k/3` turns. -/
inductive StarPos
  | center
  | pair (baseAngle : ℚ) (second : Bool)
  | triple (baseAngle : ℚ) (k : ℕ)
  deriving DecidableEq, Repr

/-- Geometry emitted for a system star. -/
inductive StarGlyph
  | gradientDisc (pos : StarPos) (radius : ℚ) (stops : List GradStop)
  | disc (pos : StarPos) (radius : ℚ) (color : RGBA)
  | ringStroke (pos : StarPos) (radius width : ℚ) (color : RGBA)
  deriving DecidableEq, Repr

/-- `drawStar` (renderScene lines 139-203), one case per star type. -/
def drawStarGlyphs : StarType → StarPos → List StarGlyph
  | .redDwarf, pos =>
    [.gradientDisc pos 90
       [⟨0, 255, 180, 120, 95/100⟩, ⟨2/5, 255, 100, 60, 1/2⟩,
        ⟨1, 255, 80, 40, 0⟩],
     .disc pos 12 ⟨255, 153, 102, 1⟩]          -- #FF9966
  | .blueGiant, pos =>
    [.gradientDisc pos 160
       [⟨0, 200, 230, 255, 95/100⟩, ⟨3/10, 120, 190, 255, 1/2⟩,
        ⟨1, 120, 190, 255, 0⟩],
     .disc pos 20 ⟨128, 191, 255, 1⟩]          -- #80BFFF
  | .neutron, pos =>
    [.gradientDisc pos 70
       [⟨0, 230, 245, 255, 1⟩, ⟨2/5, 180, 220, 255, 1/2⟩,
        ⟨1, 180, 220, 255, 0⟩],
     .disc pos 6 ⟨234, 245, 255, 1⟩,           -- #EAF5FF
     .ringStroke pos 12 1 ⟨220, 240, 255, 9/10⟩]
  | .blackHole, pos =>
    [.ringStroke pos 28 12 ⟨255, 180, 80, 3/5⟩,
     .ringStroke pos 36 6 ⟨180, 120, 255, 2/5⟩,
     .disc pos 14 ⟨0, 0, 0, 1⟩]
  | .yellow, pos =>
    [.gradientDisc pos 120
       [⟨0, 255, 235, 170, 95/100⟩, ⟨3/10, 255, 200, 80, 1/2⟩,
        ⟨1, 255, 200, 80, 0⟩],
     .disc pos 16 ⟨255, 224, 130, 1⟩]          -- #FFE082

/-- Star positions by count (renderScene lines 122-136). -/
def canvasStarPositions (seed : ℤ) (stars : List StarType) : List StarPos :=
  let count := min 3 (max 1 stars.length)
  let b := starBaseAngle seed
  if count = 1 then [.center]
  else if count = 2 then [.pair b false, .pair b true]
  else [.triple b 0, .triple b 1, .triple b 2]

/-- The raster renderer's star layer:
`positions.forEach((pos, i) => drawStar(stars[i]?.type ?? "yellow", ...))`. -/
def canvasStarGlyphs (seed : ℤ) (stars : List StarType) : List StarGlyph :=
  ((canvasStarPositions seed stars).zip
      (List.range (canvasStarPositions seed stars).length)).flatMap
    (fun pi => drawStarGlyphs ((stars[pi.2]?).getD .yellow) pi.1)

/-- The vector renderer's star layer (StarSvg lines 244-246): always one
radial-gradient glow (`#FFEBAA`/`#FFC850`) of radius 120 plus a
`#FFE082` core of radius 16 at the centre, independent of the scene's
star list. -/
def svgStarGlyphs : List StarGlyph :=
  [.gradientDisc .center 120
     [⟨0, 255, 235, 170, 95/100⟩, ⟨3/10, 255, 200, 80, 1/2⟩,
      ⟨1, 255, 200, 80, 0⟩],
   .disc .center 16 ⟨255, 224, 130, 1⟩]

/-- Rounding of `x.toFixed(2)`: nearest hundredth, ties away from zero
for the positive values occurring here (`round` rounds half up). -/
def round2 (q : ℚ) : ℚ := (round (q * 100) : ℚ) / 100

/-- Geometry of per-planet scene elements shared by both renderers. -/
inductive RenderElem
  | orbitCircle (cx cy r : ℚ)
  | ringEllipse (pos : PlanetPos) (rx ry rotDeg strokeW : ℚ)
      (color : String) (opacity : ℚ)
  | shadowDisc (pos : PlanetPos) (r : ℚ)
  | bodyDisc (pos : PlanetPos) (r : ℚ) (color : String)
  | gradientHighlight (pos : PlanetPos) (r : ℚ)
  | discHighlight (pos : PlanetPos) (dx dy r opacity : ℚ)
  | moonOrbitCircle (pos : PlanetPos) (r : ℚ)
  | moonDisc (mpos : MoonPos) (r : ℚ)
  deriving DecidableEq, Repr

/-- Planet centre used by both renderers. -/
def planetPosOf (cx cy : ℚ) (p : Planet) : PlanetPos :=
  ⟨cx, cy, p.angle, p.orbitRadius⟩

/-- Raster orbit guides (renderScene lines 241-247). -/
def canvasOrbitElems (cx cy : ℚ) (ps : List Planet) : List RenderElem :=
  ps.map (fun p => .orbitCircle cx cy p.orbitRadius)

/-- Vector orbit guides (StarSvg line 168). -/
def svgOrbitElems (cx cy : ℚ) (ps : List Planet) : List RenderElem :=
  ps.map (fun p => .orbitCircle cx cy p.orbitRadius)

/-- Raster ring (renderScene lines 255-276): translate/rotate by
`angleDeg·π/180`, scale y by `flatten`, stroke a circle of radius
`mid`, i.e. an ellipse with `rx = mid`, `ry = mid·flatten`, rotated by
`angleDeg` degrees. -/
def canvasRingElems (pos : PlanetPos) (p : Planet) : List RenderElem :=
  match p.rings with
  | some rg =>
    if rg.enabled then
      let gap := max 0 rg.gap
      let w := max 1 rg.width
      let mid := p.size + gap + w / 2
      let opacity := min 1 (max 0 rg.opacity)
      let flatten := min 1 (max (1/5) rg.flatten)
      [.ringEllipse pos mid (mid * flatten) rg.angleDeg w rg.color opacity]
    else []
  | none => []

/-- Vector ring (StarSvg lines 176-185): the same `mid`/`flatten`
geometry; the rotation attribute is `(angle·180/π).toFixed(2)` — the
degree value round-tripped through radians (exact here) and rounded to
hundredths — and the opacity attribute is `opacity.toFixed(2)`. -/
def svgRingElems (pos : PlanetPos) (p : Planet) : List RenderElem :=
  match p.rings with
  | some rg =>
    if rg.enabled then
      let gap := max 0 rg.gap
      let w := max 1 rg.width
      let mid := p.size + gap + w / 2
      let opacity := min 1 (max 0 rg.opacity)
      let flatten := min 1 (max (1/5) rg.flatten)
      [.ringEllipse pos mid (mid * flatten) (round2 rg.angleDeg) w rg.color
         (round2 opacity)]
    else []
  | none => []

/-- Raster planet body (renderScene lines 277-292): shadow disc of
radius `size + 1.5` (black, 0.3), body disc, then a radial-gradient
highlight over the body (white 0.5 → 0, centred `size/3` up-left). -/
def canvasBodyElems (pos : PlanetPos) (p : Planet) : List RenderElem :=
  [.shadowDisc pos (p.size + 3/2),
   .bodyDisc pos p.size p.color,
   .gradientHighlight pos p.size]

/-- Vector planet body (StarSvg lines 188-190): same shadow and body
discs, but the highlight is approximated by a half-radius white disc of
opacity 0.5 offset `size/3` up-left. -/
def svgBodyElems (pos : PlanetPos) (p : Planet) : List RenderElem :=
  [.shadowDisc pos (p.size + 3/2),
   .bodyDisc pos p.size p.color,
   .discHighlight pos (-(p.size / 3)) (-(p.size / 3)) (p.size / 2) (1/2)]

/-- Raster moons of planet `idx` (renderScene lines 294-319): per moon a
guide circle of radius `size + mOrbit` around the planet and the moon
disc. -/
def canvasMoonElems (seed : ℤ) (cx cy : ℚ) (idx : ℕ) (p : Planet) :
    List RenderElem :=
  (genMoons seed cx cy idx p (renderMoonCount p.moons)).flatMap
    (fun m => [.moonOrbitCircle (planetPosOf cx cy p) m.pos.mdist,
               .moonDisc m.pos m.size])

/-- Vector moons of planet `idx` (StarSvg moonData lines 53-72 and
markup lines 192-196): `moonData` records, for each moon,
`orbitRadius = p.size + mOrbit` and the moon point; the markup filters
by `parentIndex = idx`, which recovers exactly this planet's moons in
generation order. -/
def svgMoonElems (seed : ℤ) (cx cy : ℚ) (idx : ℕ) (p : Planet) :
    List RenderElem :=
  (genMoons seed cx cy idx p (renderMoonCount p.moons)).flatMap
    (fun m => [.moonOrbitCircle (planetPosOf cx cy p) m.pos.mdist,
               .moonDisc m.pos m.size])

/-! ## Concrete fixtures for closed statements -/

/-- A planet with no overrides applied, used for concrete checks. -/
def examplePlanet : Planet :=
  { orbitRadius := 100, size := 8, angle := 0, color := "#8AB4F8",
    name := "P", moons := none, rings := none, showLabel := none }

/-- An untouched editor state at the SSR defaults (seed 123456789, six
planets, no overrides, no belts or stations). -/
def st0 : AppState :=
  { seed := 123456789, numPlanets := 6,
    overrides := fun _ => emptyOverride, customNames := fun _ => none,
    belts := [], stations := [],
    labelSize := 12, labelColor := "#ffffff", showLabelBackground := false }

/-- A minimal planet entry of a snapshot document. -/
def pd0 : PlanetDoc :=
  { orbitRadius := 100, size := 8, angle := 0, color := "#8AB4F8",
    name := "P", moonsCount := none, rings := none,
    pos := ⟨0, 0, 0, 100⟩, moons := [], showLabel := true }

/-- A snapshot document whose planets array has 21 entries. -/
def doc21 : ExportDoc :=
  { seed := 42
    settings := { belts := [], stations := [], labelSize := 12,
                  labelColor := "#ffffff", showLabelBackground := false }
    planets := List.replicate 21 pd0 }

/-- Erase the `showLabel` field (for comparisons up to the import-time
normalisation of that field). -/
def stripShowLabel (p : Planet) : Planet := { p with showLabel := none }

/-- `st0` with planet 0's size overridden to 9 px. -/
def stC2 : AppState :=
  { st0 with overrides := fun j =>
      if j = 0 then { emptyOverride with size := some 9 } else emptyOverride }

/-- Planet list for the anchored-belt scenario: orbits 50, 100, 160. -/
def planetsB : List Planet :=
  [{ examplePlanet with orbitRadius := 50 },
   { examplePlanet with orbitRadius := 100 },
   { examplePlanet with orbitRadius := 160 }]

/-- Anchored belt between orbit indices 1 and 2, width 40. -/
def beltB : BeltConfig := ⟨.anchored, 40, 1/2, some 1⟩

/-- Anchored belt whose referenced gap index does not exist in
`planetsB`. -/
def beltInvalid : BeltConfig := ⟨.anchored, 40, 1/2, some 5⟩

/-- A manually-set ring configuration (the control panel's defaults:
gap 2, width 10, opacity 0.55, flatten 0.6, 45°). -/
def ringW : Rings := ⟨true, 2, 10, "#c9b18b", 11/20, 3/5, 45⟩

/-- `examplePlanet` carrying `ringW`. -/
def planetW : Planet := { examplePlanet with rings := some ringW }

/-! # Theorems -/

/-! ## 32-bit stream basics -/

theorem mod_U32_lt (a : ℕ) : a % U32 < U32 :=
  Nat.mod_lt _ (by norm_num [U32])

theorem xor_lt_U32 {a b : ℕ} (ha : a < U32) (hb : b < U32) :
    a ^^^ b < U32 := by
  have : a ^^^ b < 2 ^ 32 :=
    Nat.xor_lt_two_pow (by simpa [U32] using ha) (by simpa [U32] using hb)
  simpa [U32] using this

theorem shiftRight_lt_U32 {a : ℕ} (ha : a < U32) (k : ℕ) :
    a >>> k < U32 :=
  lt_of_le_of_lt
    (by rw [Nat.shiftRight_eq_div_pow]; exact Nat.div_le_self _ _) ha

/-- Every numerator produced by a mulberry32 call is a 32-bit value. -/
theorem mulberryStep_fst_lt (t : ℕ) : (mulberryStep t).1 < U32 := by
  unfold mulberryStep
  refine xor_lt_U32 ?_ (shiftRight_lt_U32 ?_ _) <;>
    exact xor_lt_U32 (mod_U32_lt _) (mod_U32_lt _)

theorem q32_nonneg (u : ℕ) : 0 ≤ q32 u := by
  unfold q32; positivity

theorem q32_lt_one {u : ℕ} (h : u < U32) : q32 u < 1 := by
  unfold q32
  rw [div_lt_one (by norm_num)]
  exact_mod_cast (by simpa [U32] using h)

/-! ## C9: stream values and reproducibility -/

/-- C9: every call of the stream function returned by
`mulberry32(mixSeed(...))` yields a value `v` with `0 ≤ v < 1`, and the
same stream seed always yields the same output sequence. -/
theorem stream_values_in_unit_interval :
    (∀ (seed : ℤ) (salt idx k : ℕ),
        0 ≤ q32 (mulberryOut (mix3 seed salt idx) k) ∧
        q32 (mulberryOut (mix3 seed salt idx) k) < 1) ∧
    (∀ t t' : ℕ, t = t' → ∀ k, mulberryOut t k = mulberryOut t' k) := by
  refine ⟨fun seed salt idx k => ⟨q32_nonneg _, q32_lt_one ?_⟩,
          fun t t' h k => by rw [h]⟩
  exact mulberryStep_fst_lt _

/-- Witness for `stream_values_in_unit_interval` at the default seed and
the moon salt. -/
theorem stream_values_in_unit_interval_witness :
    (0 ≤ q32 (mulberryOut (mix3 123456789 0xdeadbe 0) 0) ∧
     q32 (mulberryOut (mix3 123456789 0xdeadbe 0) 0) < 1) ∧
    mulberryOut 7 0 = mulberryOut 7 0 :=
  ⟨stream_values_in_unit_interval.1 123456789 0xdeadbe 0 0,
   stream_values_in_unit_interval.2 7 7 rfl 0⟩

/-! ## C1: determinism of scene generation -/

/-- C1: for every seed and planet count, building the base planet list
(with its per-planet moon counts and ring parameters) and the belt
particle sets twice from identical inputs yields identical arrays. -/
theorem scene_generation_deterministic (seed : ℤ) (n : ℕ)
    (belts : List BeltConfig) (ps₁ ps₂ : List Planet)
    (b₁ b₂ : List (List BeltParticle))
    (h₁ : ps₁ = basePlanets seed n) (h₂ : ps₂ = basePlanets seed n)
    (hb₁ : b₁ = beltRender seed ps₁ belts)
    (hb₂ : b₂ = beltRender seed ps₂ belts) :
    ps₁ = ps₂ ∧ b₁ = b₂ := by
  subst h₁ h₂ hb₁ hb₂
  exact ⟨rfl, rfl⟩

/-- Witness for `scene_generation_deterministic` at seed 123456789 with
three planets and one free belt. -/
theorem scene_generation_deterministic_witness :
    basePlanets 123456789 3 = basePlanets 123456789 3 ∧
    beltRender 123456789 (basePlanets 123456789 3)
        [⟨.free, 80, 1/2, none⟩] =
      beltRender 123456789 (basePlanets 123456789 3)
        [⟨.free, 80, 1/2, none⟩] :=
  scene_generation_deterministic 123456789 3 [⟨.free, 80, 1/2, none⟩]
    _ _ _ _ rfl rfl rfl rfl

/-! ## C4: orbit radii -/

theorem genPlanet_fst_orbitRadius (seed : ℤ) (i : ℕ) (orbit : ℚ) (s : ℕ) :
    (genPlanet seed i orbit s).1.orbitRadius =
      orbit + (35 + q32 (mulberryStep s).1 * (70 - 35)) := rfl

theorem genPlanet_snd_fst (seed : ℤ) (i : ℕ) (orbit : ℚ) (s : ℕ) :
    (genPlanet seed i orbit s).2.1 =
      orbit + (35 + q32 (mulberryStep s).1 * (70 - 35)) := rfl

/-- Each orbit gap lies in `[35, 70)`. -/
theorem gap_bounds (s : ℕ) :
    35 ≤ 35 + q32 (mulberryStep s).1 * (70 - 35) ∧
    35 + q32 (mulberryStep s).1 * (70 - 35) < 70 := by
  have h0 := q32_nonneg (mulberryStep s).1
  have h1 := q32_lt_one (mulberryStep_fst_lt s)
  constructor
  · nlinarith
  · nlinarith

/-- The accumulated orbit radius chain is strictly increasing. -/
theorem basePlanetsAux_chain (seed : ℤ) :
    ∀ (fuel i : ℕ) (orbit : ℚ) (s : ℕ),
      List.Chain' (· < ·)
        (orbit :: (basePlanetsAux seed fuel i orbit s).map Planet.orbitRadius)
  | 0, _, _, _ => by simp [basePlanetsAux]
  | fuel + 1, i, orbit, s => by
    have ih := basePlanetsAux_chain seed fuel (i + 1)
      ((genPlanet seed i orbit s).2.1) ((genPlanet seed i orbit s).2.2)
    simp only [basePlanetsAux, List.map_cons, List.chain'_cons]
    refine ⟨?_, ?_⟩
    · rw [genPlanet_fst_orbitRadius]
      have := (gap_bounds s).1
      linarith
    · simpa [genPlanet_fst_orbitRadius, genPlanet_snd_fst] using ih

/-- C4: orbit radii strictly increase with planet index, and the first
planet's orbit radius lies in `[75, 110]` (40 px minimum orbit plus a
gap drawn from 35-70 px). -/
theorem orbit_radii_strictly_increasing (seed : ℤ) (n : ℕ) (h2 : 2 ≤ n) :
    List.Chain' (· < ·) ((basePlanets seed n).map Planet.orbitRadius) ∧
    ∃ p rest, basePlanets seed n = p :: rest ∧
      75 ≤ p.orbitRadius ∧ p.orbitRadius ≤ 110 := by
  constructor
  · exact (basePlanetsAux_chain seed n 0 40 (toUint32 seed)).tail
  · obtain ⟨m, rfl⟩ : ∃ m, n = m + 1 := ⟨n - 1, by omega⟩
    refine ⟨_, _, rfl, ?_, ?_⟩
    · rw [genPlanet_fst_orbitRadius]
      have := (gap_bounds (toUint32 seed)).1
      linarith
    · rw [genPlanet_fst_orbitRadius]
      have := (gap_bounds (toUint32 seed)).2
      linarith

/-- Witness for `orbit_radii_strictly_increasing`: the spec's scenario A
(seed 123456789, six planets). -/
theorem orbit_radii_strictly_increasing_witness :
    List.Chain' (· < ·) ((basePlanets 123456789 6).map Planet.orbitRadius) ∧
    ∃ p rest, basePlanets 123456789 6 = p :: rest ∧
      75 ≤ p.orbitRadius ∧ p.orbitRadius ≤ 110 :=
  orbit_radii_strictly_increasing 123456789 6 (by decide)

/-! ## List infrastructure for the composed planet list and belts -/

theorem planetsListAux_get? (defaults : List String)
    (ov : ℕ → PlanetOverride) (cn : ℕ → Option String) :
    ∀ (l : List Planet) (i k : ℕ),
      (planetsListAux defaults ov cn i l)[k]? =
        (l[k]?).map (fun b =>
          composePlanet b (ov (i + k)) (planetName cn ov defaults (i + k)))
  | [], i, k => by simp [planetsListAux]
  | b :: rest, i, 0 => by simp [planetsListAux]
  | b :: rest, i, k + 1 => by
    have ih := planetsListAux_get? defaults ov cn rest (i + 1) k
    simpa [planetsListAux, Nat.add_assoc, Nat.add_comm 1 k] using ih

theorem planetsListAux_map_orbit (defaults : List String)
    (ov : ℕ → PlanetOverride) (cn : ℕ → Option String) :
    ∀ (l : List Planet) (i : ℕ),
      (planetsListAux defaults ov cn i l).map Planet.orbitRadius =
        l.map Planet.orbitRadius
  | [], _ => rfl
  | b :: rest, i => by
    simp [planetsListAux, composePlanet,
      planetsListAux_map_orbit defaults ov cn rest (i + 1)]

theorem planetsListAux_length (defaults : List String)
    (ov : ℕ → PlanetOverride) (cn : ℕ → Option String) :
    ∀ (l : List Planet) (i : ℕ),
      (planetsListAux defaults ov cn i l).length = l.length
  | [], _ => rfl
  | b :: rest, i => by
    simp [planetsListAux, planetsListAux_length defaults ov cn rest (i + 1)]

theorem basePlanetsAux_length (seed : ℤ) :
    ∀ (fuel i : ℕ) (orbit : ℚ) (s : ℕ),
      (basePlanetsAux seed fuel i orbit s).length = fuel
  | 0, _, _, _ => rfl
  | fuel + 1, i, orbit, s => by
    simp [basePlanetsAux, basePlanetsAux_length seed fuel]

/-- `resolveBelt` reads the planet list only through its orbit radii. -/
theorem resolveBelt_congr (seed : ℤ) {ps ps' : List Planet} (bi : ℕ)
    (b : BeltConfig)
    (h : ps.map Planet.orbitRadius = ps'.map Planet.orbitRadius) :
    resolveBelt seed ps bi b = resolveBelt seed ps' bi b := by
  have hget : ∀ g : ℕ, (ps[g]?).map Planet.orbitRadius =
      (ps'[g]?).map Planet.orbitRadius := by
    intro g; rw [← List.getElem?_map, ← List.getElem?_map, h]
  have hlast : (ps.getLast?).map Planet.orbitRadius =
      (ps'.getLast?).map Planet.orbitRadius := by
    rw [← List.getLast?_map, ← List.getLast?_map, h]
  obtain ⟨bt, w, d, gi⟩ := b
  cases bt with
  | anchored =>
    cases gi with
    | none =>
      simp only [resolveBelt]
      rcases e1 : ps.getLast? with _ | a <;>
        rcases e2 : ps'.getLast? with _ | a' <;>
          simp [e1, e2] at hlast ⊢
      rw [hlast]
    | some g =>
      have h1 := hget g
      have h2 := hget (g + 1)
      simp only [resolveBelt]
      rcases e1 : ps[g]? with _ | a <;>
        rcases e2 : ps'[g]? with _ | a' <;>
          simp [e1, e2] at h1 ⊢
      · rcases e3 : ps[g + 1]? with _ | c <;>
          rcases e4 : ps'[g + 1]? with _ | c' <;>
            simp [e3, e4] at h2 ⊢
        rw [h1, h2]
  | free =>
    simp only [resolveBelt]
    rcases e1 : ps.getLast? with _ | a <;>
      rcases e2 : ps'.getLast? with _ | a' <;>
        simp [e1, e2] at hlast ⊢
    rw [hlast]

theorem beltEntry_congr (seed : ℤ) {ps ps' : List Planet} (bi : ℕ)
    (b : BeltConfig)
    (h : ps.map Planet.orbitRadius = ps'.map Planet.orbitRadius) :
    beltEntry seed ps bi b = beltEntry seed ps' bi b := by
  unfold beltEntry
  rw [resolveBelt_congr seed bi b h]

theorem beltRenderAux_congr (seed : ℤ) {ps ps' : List Planet}
    (h : ps.map Planet.orbitRadius = ps'.map Planet.orbitRadius) :
    ∀ (belts : List BeltConfig) (i : ℕ),
      beltRenderAux seed ps i belts = beltRenderAux seed ps' i belts
  | [], _ => rfl
  | b :: rest, i => by
    simp [beltRenderAux, beltEntry_congr seed i b h,
      beltRenderAux_congr seed h rest (i + 1)]

theorem beltRenderAux_get? (seed : ℤ) (ps : List Planet) :
    ∀ (belts : List BeltConfig) (i j : ℕ),
      (beltRenderAux seed ps i belts)[j]? =
        (belts[j]?).map (fun b => beltEntry seed ps (i + j) b)
  | [], _, _ => by simp [beltRenderAux]
  | b :: rest, i, 0 => by simp [beltRenderAux]
  | b :: rest, i, j + 1 => by
    have ih := beltRenderAux_get? seed ps rest (i + 1) j
    simpa [beltRenderAux, Nat.add_assoc, Nat.add_comm 1 j] using ih

/-! ## C2: override isolation -/

/-- C2: two states that agree everywhere except possibly in planet `i`'s
override (and custom name) compose identical planets at every index
`j ≠ i`, and their rendered belts and stations coincide. -/
theorem override_isolation (st st' : AppState) (i : ℕ)
    (hseed : st'.seed = st.seed) (hn : st'.numPlanets = st.numPlanets)
    (hb : st'.belts = st.belts) (hs : st'.stations = st.stations)
    (hov : ∀ j, j ≠ i → st'.overrides j = st.overrides j)
    (hcn : ∀ j, j ≠ i → st'.customNames j = st.customNames j) :
    (∀ j : ℕ, j ≠ i →
      (composedPlanets st')[j]? = (composedPlanets st)[j]?) ∧
    beltRender st'.seed (composedPlanets st') st'.belts =
      beltRender st.seed (composedPlanets st) st.belts ∧
    st'.stations = st.stations := by
  have horb : (composedPlanets st').map Planet.orbitRadius =
      (composedPlanets st).map Planet.orbitRadius := by
    unfold composedPlanets planetsCompose
    rw [planetsListAux_map_orbit, planetsListAux_map_orbit, hseed, hn]
  refine ⟨?_, ?_, hs⟩
  · intro j hj
    unfold composedPlanets planetsCompose
    rw [planetsListAux_get?, planetsListAux_get?, hseed, hn]
    simp only [Nat.zero_add]
    congr 1
    funext b
    have h1 := hov j hj
    have h2 := hcn j hj
    unfold composePlanet planetName
    rw [h1, h2]
  · rw [hseed, hb]
    unfold beltRender
    rw [beltRenderAux_congr st.seed horb]

/-- Witness for `override_isolation`: overriding planet 0's size in the
default six-planet state. -/
theorem override_isolation_witness :
    (∀ j : ℕ, j ≠ 0 →
      (composedPlanets stC2)[j]? = (composedPlanets st0)[j]?) ∧
    beltRender stC2.seed (composedPlanets stC2) stC2.belts =
      beltRender st0.seed (composedPlanets st0) st0.belts ∧
    stC2.stations = st0.stations :=
  override_isolation st0 stC2 0 rfl rfl rfl rfl
    (fun j hj => by simp [stC2, st0, hj])
    (fun j hj => rfl)

/-! ## C5: anchored belt resolution -/

/-- C5: when both referenced planets exist, an anchored belt's inner
edge is `max 50 (mean − width/2)` and its outer edge `inner + width`;
when either referenced planet is missing the belt is skipped (empty
particle set), and editing one belt never affects another belt's
rendering. -/
theorem anchored_belt_resolution :
    (∀ (seed : ℤ) (ps : List Planet) (bi : ℕ) (b : BeltConfig) (g : ℕ)
        (a pb : Planet),
      b.btype = .anchored → b.gapIndex = some g →
      ps[g]? = some a → ps[g + 1]? = some pb →
      resolveBelt seed ps bi b =
        some (max 50 ((a.orbitRadius + pb.orbitRadius) / 2 - b.width / 2),
              max 50 ((a.orbitRadius + pb.orbitRadius) / 2 - b.width / 2)
                + b.width)) ∧
    (∀ (seed : ℤ) (ps : List Planet) (bi : ℕ) (b : BeltConfig) (g : ℕ),
      b.btype = .anchored → b.gapIndex = some g →
      (ps[g]? = none ∨ ps[g + 1]? = none) →
      beltEntry seed ps bi b = []) ∧
    (∀ (seed : ℤ) (ps : List Planet) (belts : List BeltConfig) (k : ℕ)
        (b' : BeltConfig) (j : ℕ), j ≠ k →
      (beltRender seed ps (belts.set k b'))[j]? =
        (beltRender seed ps belts)[j]?) := by
  refine ⟨?_, ?_, ?_⟩
  · intro seed ps bi b g a pb hbt hgi h1 h2
    obtain ⟨bt, w, d, gi⟩ := b
    simp only at hbt hgi
    subst hbt hgi
    simp [resolveBelt, h1, h2]
  · intro seed ps bi b g hbt hgi hnone
    obtain ⟨bt, w, d, gi⟩ := b
    simp only at hbt hgi
    subst hbt hgi
    rcases hnone with h | h
    · simp [beltEntry, resolveBelt, h]
    · rcases e : ps[g]? with _ | a <;> simp [beltEntry, resolveBelt, e, h]
  · intro seed ps belts k b' j hj
    unfold beltRender
    rw [beltRenderAux_get?, beltRenderAux_get?,
      List.getElem?_set_ne (Ne.symm hj)]

/-- Witness for `anchored_belt_resolution`: scenario B (orbits 100 and
160, width 40 ⇒ inner 110, outer 150), a skipped belt with a dangling
gap index, and independence of belt 1 from editing belt 0. -/
theorem anchored_belt_resolution_witness :
    resolveBelt 0 planetsB 0 beltB = some (110, 150) ∧
    beltEntry 0 planetsB 0 beltInvalid = [] ∧
    (beltRender 0 planetsB ([beltB, beltInvalid].set 0 beltInvalid))[1]? =
      (beltRender 0 planetsB [beltB, beltInvalid])[1]? := by
  refine ⟨?_, ?_, ?_⟩
  · have h := anchored_belt_resolution.1 0 planetsB 0 beltB 1
      { examplePlanet with orbitRadius := 100 }
      { examplePlanet with orbitRadius := 160 }
      rfl rfl (by decide) (by decide)
    rw [h]
    norm_num [beltB, examplePlanet]
  · exact anchored_belt_resolution.2.1 0 planetsB 0 beltInvalid 5 rfl rfl
      (Or.inl (by decide))
  · exact anchored_belt_resolution.2.2 0 planetsB [beltB, beltInvalid] 0
      beltInvalid 1 (by decide)

/-! ## C6: generated moon counts -/

/-- C6 (divergence): the generated moon count uses its own salt
(`0xdeadbe` ≠ ring salt `0x13579b`) and always lies in `[0, 4)`, but it
is dropped by the composition: at seed 123456789 the base list gives
planet 0 one moon, while the composed scene (line 199 takes
`planetOverrides[i]?.moons` with no `?? src.moons` fallback) carries no
moon count, so the renderers and the export use 0 moons. -/
theorem generated_moons_dropped :
    (∀ (seed : ℤ) (i : ℕ), moonsCountGen seed i < 4) ∧
    moonSalt ≠ ringSalt ∧
    ((basePlanets 123456789 6)[0]?).map Planet.moons = some (some 1) ∧
    ((composedPlanets st0)[0]?).map Planet.moons = some none ∧
    renderMoonCount none = 0 ∧ exportMoonCount none = 0 := by
  refine ⟨?_, by decide, by decide, by decide, by decide, by decide⟩
  intro seed i
  unfold moonsCountGen
  have h := mulberryStep_fst_lt (mix3 seed moonSalt i)
  have : (mulberryStep (mix3 seed moonSalt i)).1 * 4 < 4 * U32 := by
    omega
  exact Nat.div_lt_iff_lt_mul (by norm_num [U32]) |>.mpr
    (by omega)

/-! ## C8: planet count bounds -/

/-- C8 (counterexample): importing a snapshot whose planets array has 21
entries sets `numPlanets` to 21, outside the 0..20 bound. -/
theorem planet_count_import_unclamped :
    (importState doc21 st0).numPlanets = 21 ∧
    ¬ (importState doc21 st0).numPlanets ≤ 20 := by
  constructor
  · show doc21.planets.length = 21
    decide
  · show ¬ doc21.planets.length ≤ 20
    decide

/-- C8 (amended): the slider/number-input path `handleNumChange` clamps
to `[0, 20]`, but the import path sets `numPlanets` to the document's
planets-array length with no clamp. -/
theorem planet_count_clamped_on_input_path :
    (∀ v : ℚ, 0 ≤ handleNumChange v ∧ handleNumChange v ≤ 20) ∧
    (∀ (doc : ExportDoc) (st : AppState),
      (importState doc st).numPlanets = doc.planets.length) := by
  constructor
  · intro v
    unfold handleNumChange
    exact ⟨le_max_left _ _, max_le (by norm_num) (min_le_left _ _)⟩
  · intro doc st
    rfl

/-! ## C3: snapshot round-trip -/

theorem exportPlanetsAux_length (seed : ℤ) :
    ∀ (l : List Planet) (i : ℕ), (exportPlanetsAux seed i l).length = l.length
  | [], _ => rfl
  | p :: rest, i => by
    simp [exportPlanetsAux, exportPlanetsAux_length seed rest (i + 1)]

theorem exportPlanetsAux_get? (seed : ℤ) :
    ∀ (l : List Planet) (i k : ℕ),
      (exportPlanetsAux seed i l)[k]? =
        (l[k]?).map (fun p => exportPlanet seed (i + k) p)
  | [], _, _ => by simp [exportPlanetsAux]
  | p :: rest, i, 0 => by simp [exportPlanetsAux]
  | p :: rest, i, k + 1 => by
    have ih := exportPlanetsAux_get? seed rest (i + 1) k
    simpa [exportPlanetsAux, Nat.add_assoc, Nat.add_comm 1 k] using ih

theorem notFalse_notFalse (x : Option Bool) :
    notFalse (some (notFalse x)) = notFalse x := by
  rcases x with _ | _ | _ <;> rfl

/-- Moon recomputation only reads the fields preserved by
`stripShowLabel`. -/
theorem exportPlanet_moons_congr (seed : ℤ) (k : ℕ) {p p' : Planet}
    (h : stripShowLabel p' = stripShowLabel p) :
    (exportPlanet seed k p').moons = (exportPlanet seed k p).moons := by
  have ha : p'.angle = p.angle := by
    simpa [stripShowLabel] using congrArg Planet.angle h
  have ho : p'.orbitRadius = p.orbitRadius := by
    simpa [stripShowLabel] using congrArg Planet.orbitRadius h
  have hs : p'.size = p.size := by
    simpa [stripShowLabel] using congrArg Planet.size h
  have hm : p'.moons = p.moons := by
    simpa [stripShowLabel] using congrArg Planet.moons h
  simp [exportPlanet, genMoons, ha, ho, hs, hm]

/-- Re-composing a planet with the override reconstructed from its own
export reproduces it up to the `showLabel` normalisation. -/
theorem strip_compose_import (seed : ℤ) (k : ℕ) (b : Planet) (nm : String) :
    stripShowLabel (composePlanet b
      (importOverride (exportPlanet seed k (composePlanet b emptyOverride nm)))
      nm) =
    stripShowLabel (composePlanet b emptyOverride nm) := by
  rcases b with ⟨orb, sz, ang, col, nmb, mo, ri, sl⟩
  cases ri <;> rfl

/-- C3 (amended): exporting an unmodified scene and importing it back
reconstructs planets equal to the originals in every exported field
except `showLabel`, which import normalises to `true`; belts are
restored exactly, stations up to the same `showLabel` normalisation;
and the moon lists embedded by re-exporting the imported state equal
those of the original export. -/
theorem snapshot_roundtrip (st : AppState)
    (hov : ∀ j, st.overrides j = emptyOverride)
    (hcn : ∀ j, st.customNames j = none) :
    (∀ k : ℕ,
      ((composedPlanets (importState (exportDoc st) st))[k]?).map
          stripShowLabel =
        ((composedPlanets st)[k]?).map stripShowLabel) ∧
    (∀ (k : ℕ) (p' : Planet),
      (composedPlanets (importState (exportDoc st) st))[k]? = some p' →
      p'.showLabel = some true) ∧
    (importState (exportDoc st) st).belts = st.belts ∧
    (importState (exportDoc st) st).stations =
      st.stations.map (fun s => { s with showLabel := some (notFalse s.showLabel) }) ∧
    (exportDoc (importState (exportDoc st) st)).planets.map PlanetDoc.moons =
      (exportDoc st).planets.map PlanetDoc.moons := by
  have hb : (importState (exportDoc st) st).numPlanets = st.numPlanets := by
    show (exportDoc st).planets.length = st.numPlanets
    show (exportPlanetsAux st.seed 0 (composedPlanets st)).length = _
    rw [exportPlanetsAux_length]
    show (planetsListAux _ _ _ 0 (basePlanets st.seed st.numPlanets)).length = _
    rw [planetsListAux_length]
    show (basePlanetsAux st.seed st.numPlanets 0 40 _).length = _
    rw [basePlanetsAux_length]
  have hcomp : ∀ k : ℕ, (composedPlanets st)[k]? =
      ((basePlanets st.seed st.numPlanets)[k]?).map
        (fun b => composePlanet b emptyOverride
          (((defaultNames st.seed st.numPlanets)[k]?).getD
            ("Planet " ++ toString (k + 1)))) := by
    intro k
    show (planetsListAux _ _ _ 0 (basePlanets st.seed st.numPlanets))[k]? = _
    rw [planetsListAux_get?]
    simp [planetName, hov, hcn, emptyOverride]
  have hdocget : ∀ k : ℕ, (exportDoc st).planets[k]? =
      ((composedPlanets st)[k]?).map (fun p => exportPlanet st.seed k p) := by
    intro k
    show (exportPlanetsAux st.seed 0 (composedPlanets st))[k]? = _
    rw [exportPlanetsAux_get?]
    simp
  have hcomp' : ∀ k : ℕ,
      (composedPlanets (importState (exportDoc st) st))[k]? =
        ((basePlanets st.seed st.numPlanets)[k]?).map
          (fun b => composePlanet b
            ((importState (exportDoc st) st).overrides k)
            (planetName (importState (exportDoc st) st).customNames
              (importState (exportDoc st) st).overrides
              (defaultNames st.seed st.numPlanets) k)) := by
    intro k
    show (planetsListAux _ _ _ 0
      (basePlanets (importState (exportDoc st) st).seed
        (importState (exportDoc st) st).numPlanets))[k]? = _
    rw [hb]
    rw [planetsListAux_get?]
    simp only [Nat.zero_add]
    rfl
  have main : ∀ k : ℕ,
      ((composedPlanets (importState (exportDoc st) st))[k]?).map
          stripShowLabel =
        ((composedPlanets st)[k]?).map stripShowLabel ∧
      (∀ p', (composedPlanets (importState (exportDoc st) st))[k]? = some p' →
        p'.showLabel = some true) := by
    intro k
    rcases e : (basePlanets st.seed st.numPlanets)[k]? with _ | b
    · rw [hcomp' k, hcomp k, e]
      simp
    · set nm : String :=
        ((defaultNames st.seed st.numPlanets)[k]?).getD
          ("Planet " ++ toString (k + 1)) with hnm
      set orig : Planet := composePlanet b emptyOverride nm with horig
      have hcko : (composedPlanets st)[k]? = some orig := by
        rw [hcomp k, e]; rfl
      have hpd : (exportDoc st).planets[k]? =
          some (exportPlanet st.seed k orig) := by
        rw [hdocget k, hcko]; rfl
      have hovk : (importState (exportDoc st) st).overrides k =
          importOverride (exportPlanet st.seed k orig) := by
        show (match (exportDoc st).planets[k]? with
              | some pd => importOverride pd
              | none => emptyOverride) = _
        rw [hpd]
      have hcnk : (importState (exportDoc st) st).customNames k =
          (if (exportPlanet st.seed k orig).name = "" then none
           else some (exportPlanet st.seed k orig).name) := by
        show (match (exportDoc st).planets[k]? with
              | some pd => if pd.name = "" then none else some pd.name
              | none => none) = _
        rw [hpd]
      have hname : (exportPlanet st.seed k orig).name = nm := rfl
      have hnewname :
          planetName (importState (exportDoc st) st).customNames
            (importState (exportDoc st) st).overrides
            (defaultNames st.seed st.numPlanets) k = nm := by
        unfold planetName
        rw [hcnk, hovk, hname]
        simp only [importOverride]
        rw [← hnm]
        by_cases h : nm = "" <;> simp [h]
      constructor
      · rw [hcomp' k, hcko, e]
        simp only [Option.map_some']
        congr 1
        rw [hnewname, hovk, horig]
        exact strip_compose_import st.seed k b nm
      · intro p' hp'
        rw [hcomp' k, e] at hp'
        simp only [Option.map_some', Option.some_inj] at hp'
        rw [← hp']
        show ((importState (exportDoc st) st).overrides k).showLabel = some true
        rw [hovk, horig]
        rfl
  refine ⟨fun k => (main k).1, fun k => (main k).2, rfl, ?_, ?_⟩
  · show (st.stations.map exportStationJS).map importStationJS = _
    rw [List.map_map]
    have : importStationJS ∘ exportStationJS =
        (fun s => { s with showLabel := some (notFalse s.showLabel) }) := by
      funext s
      show { s with showLabel := some (notFalse (some (notFalse s.showLabel))) }
        = _
      rw [notFalse_notFalse]
    rw [this]
  · apply List.ext_getElem?
    intro k
    rw [List.getElem?_map, List.getElem?_map]
    have hdocget' : (exportDoc (importState (exportDoc st) st)).planets[k]? =
        ((composedPlanets (importState (exportDoc st) st))[k]?).map
          (fun p => exportPlanet st.seed k p) := by
      show (exportPlanetsAux (importState (exportDoc st) st).seed 0
        (composedPlanets (importState (exportDoc st) st)))[k]? = _
      rw [exportPlanetsAux_get?]
      simp only [Nat.zero_add]
      rfl
    rw [hdocget', hdocget k]
    have hmk := (main k).1
    rcases e1 : (composedPlanets (importState (exportDoc st) st))[k]? with _ | p'
      <;> rcases e2 : (composedPlanets st)[k]? with _ | p <;>
        simp [e1, e2] at hmk ⊢
    exact exportPlanet_moons_congr st.seed k hmk

/-- Witness for `snapshot_roundtrip`: the untouched default state. -/
theorem snapshot_roundtrip_witness :
    ((composedPlanets (importState (exportDoc st0) st0))[0]?).map
        stripShowLabel =
      ((composedPlanets st0)[0]?).map stripShowLabel ∧
    (importState (exportDoc st0) st0).belts = st0.belts :=
  ⟨(snapshot_roundtrip st0 (fun _ => rfl) (fun _ => rfl)).1 0,
   (snapshot_roundtrip st0 (fun _ => rfl) (fun _ => rfl)).2.2.1⟩

/-- C3 (counterexample): for the unmodified default scene, the original
composed planet 0 has `showLabel` unset while the planet recomposed
after import-of-export has `showLabel = true`, so the reconstructed
state does not equal the original in the `showLabel` field. -/
theorem snapshot_roundtrip_cex :
    ((composedPlanets (importState (exportDoc st0) st0))[0]?).map
        Planet.showLabel = some (some true) ∧
    ((composedPlanets st0)[0]?).map Planet.showLabel = some none := by
  constructor <;> decide

/-! ## C7: raster vs vector geometry -/

/-- C7 (amended): the two renderers agree geometrically on orbit
circles, planet shadow/body discs, moons with their orbit guides, the
star layer for the default single yellow star, and ring ellipses
whenever the rotation and clamped opacity survive the SVG's
two-decimal rounding (generated rings have integral `angleDeg`, so
their rotation always does). -/
theorem renderer_geometry_agree :
    (∀ (cx cy : ℚ) (ps : List Planet),
      canvasOrbitElems cx cy ps = svgOrbitElems cx cy ps) ∧
    (∀ (pos : PlanetPos) (p : Planet),
      (canvasBodyElems pos p).take 2 = (svgBodyElems pos p).take 2) ∧
    (∀ (seed : ℤ) (cx cy : ℚ) (idx : ℕ) (p : Planet),
      canvasMoonElems seed cx cy idx p = svgMoonElems seed cx cy idx p) ∧
    (∀ (pos : PlanetPos) (p : Planet) (rg : Rings),
      p.rings = some rg →
      round2 rg.angleDeg = rg.angleDeg →
      round2 (min 1 (max 0 rg.opacity)) = min 1 (max 0 rg.opacity) →
      canvasRingElems pos p = svgRingElems pos p) ∧
    (∀ seed : ℤ, canvasStarGlyphs seed [StarType.yellow] = svgStarGlyphs) := by
  refine ⟨fun _ _ _ => rfl, fun _ _ => rfl, fun _ _ _ _ _ => rfl, ?_,
    fun _ => rfl⟩
  intro pos p rg hrg h1 h2
  simp [canvasRingElems, svgRingElems, hrg, h1, h2]

/-- Witness for `renderer_geometry_agree`: a planet with the control
panel's default ring (45°, opacity 0.55) and the three-planet list. -/
theorem renderer_geometry_agree_witness :
    canvasRingElems ⟨0, 0, 0, 100⟩ planetW = svgRingElems ⟨0, 0, 0, 100⟩ planetW ∧
    canvasOrbitElems 0 0 planetsB = svgOrbitElems 0 0 planetsB :=
  ⟨renderer_geometry_agree.2.2.2.1 ⟨0, 0, 0, 100⟩ planetW ringW rfl
      (by norm_num [round2, ringW, round_eq])
      (by norm_num [round2, ringW, round_eq]),
   renderer_geometry_agree.1 0 0 planetsB⟩

/-- C7 (counterexample): the renderers are not geometrically identical
for every element type — the vector renderer always draws a single
yellow star (a red-dwarf scene gets a 120/16 px yellow glyph pair
instead of the raster's 90/12 px red pair), and it approximates the
planet highlight with an offset disc instead of a radial gradient. -/
theorem renderer_geometry_cex :
    canvasStarGlyphs 0 [StarType.redDwarf] ≠ svgStarGlyphs ∧
    canvasBodyElems ⟨0, 0, 0, 100⟩ examplePlanet ≠
      svgBodyElems ⟨0, 0, 0, 100⟩ examplePlanet := by
  constructor
  · decide
  · simp [canvasBodyElems, svgBodyElems]

/-! ## C10: seeds act through 32-bit truncation -/

theorem toUint32_congr {s s' : ℤ}
    (h : s % 4294967296 = s' % 4294967296) : toUint32 s = toUint32 s' := by
  unfold toUint32; rw [h]

theorem mix3_congr {s s' : ℤ} (h : toUint32 s = toUint32 s')
    (salt idx : ℕ) : mix3 s salt idx = mix3 s' salt idx := by
  unfold mix3; rw [h]

theorem moonsCountGen_congr {s s' : ℤ} (h : toUint32 s = toUint32 s')
    (i : ℕ) : moonsCountGen s i = moonsCountGen s' i := by
  simp only [moonsCountGen, mix3_congr h]

theorem genRings_congr {s s' : ℤ} (h : toUint32 s = toUint32 s')
    (i : ℕ) : genRings s i = genRings s' i := by
  simp only [genRings, mix3_congr h]

theorem genPlanet_congr {s s' : ℤ} (h : toUint32 s = toUint32 s')
    (i : ℕ) (orbit : ℚ) (t : ℕ) :
    genPlanet s i orbit t = genPlanet s' i orbit t := by
  simp only [genPlanet, moonsCountGen_congr h, genRings_congr h]

theorem basePlanetsAux_congr {s s' : ℤ} (h : toUint32 s = toUint32 s') :
    ∀ (fuel i : ℕ) (orbit : ℚ) (t : ℕ),
      basePlanetsAux s fuel i orbit t = basePlanetsAux s' fuel i orbit t
  | 0, _, _, _ => rfl
  | fuel + 1, i, orbit, t => by
    simp only [basePlanetsAux, genPlanet_congr h,
      basePlanetsAux_congr h fuel]

theorem beltEntry_seed_congr {s s' : ℤ} (h : toUint32 s = toUint32 s')
    (ps : List Planet) (bi : ℕ) (b : BeltConfig) :
    beltEntry s ps bi b = beltEntry s' ps bi b := by
  simp only [beltEntry, resolveBelt, mix3_congr h]

theorem beltRenderAux_seed_congr {s s' : ℤ} (h : toUint32 s = toUint32 s')
    (ps : List Planet) :
    ∀ (belts : List BeltConfig) (i : ℕ),
      beltRenderAux s ps i belts = beltRenderAux s' ps i belts
  | [], _ => rfl
  | b :: rest, i => by
    simp only [beltRenderAux, beltEntry_seed_congr h,
      beltRenderAux_seed_congr h ps rest]

/-- C10: seeds enter generation only through 32-bit truncation
(`seed >>> 0`, `p | 0`, 32-bit XOR salting), so seeds congruent mod
2^32 generate identical planets, names, belts, moons, starfield and
star layout. -/
theorem seed_truncation_congruence (s s' : ℤ)
    (h : s % 4294967296 = s' % 4294967296) :
    (∀ n, basePlanets s n = basePlanets s' n) ∧
    (∀ n, defaultNames s n = defaultNames s' n) ∧
    (∀ (ps : List Planet) (belts : List BeltConfig),
      beltRender s ps belts = beltRender s' ps belts) ∧
    (∀ (cx cy : ℚ) (idx : ℕ) (p : Planet) (c : ℕ),
      genMoons s cx cy idx p c = genMoons s' cx cy idx p c) ∧
    (∀ w hh : ℚ, starfield s w hh = starfield s' w hh) ∧
    starBaseAngle s = starBaseAngle s' := by
  have ht := toUint32_congr h
  refine ⟨?_, ?_, ?_, ?_, ?_, ?_⟩
  · intro n
    unfold basePlanets
    rw [basePlanetsAux_congr ht, ht]
  · intro n
    unfold defaultNames
    rw [ht]
  · intro ps belts
    unfold beltRender
    rw [beltRenderAux_seed_congr ht]
  · intro cx cy idx p c
    simp only [genMoons, mix3_congr ht]
  · intro w hh
    unfold starfield
    rw [ht]
  · unfold starBaseAngle
    rw [ht]

/-- Witness for `seed_truncation_congruence`: seed 5 versus 5 + 2^32. -/
theorem seed_truncation_congruence_witness :
    basePlanets 5 1 = basePlanets 4294967301 1 ∧
    starBaseAngle 5 = starBaseAngle 4294967301 :=
  ⟨(seed_truncation_congruence 5 4294967301 (by decide)).1 1,
   (seed_truncation_congruence 5 4294967301 (by decide)).2.2.2.2.2⟩

end StarMap
